import Mathlib

/-!
Shallow embedding of `src/auto-command-manager.ts`: the auto command manager
that wraps the external `auto` release tool.  Each TypeScript method that
builds an argument vector is translated into a pure Lean function producing
the same `List String`; the subprocess boundary (`exec.exec` from
@actions/exec) is modelled by a parameter `run : List String → ExecOutcome`
giving the exit code and captured stdout chunks of the external process at a
given argument vector.  JavaScript runtime semantics that matter here are
modelled explicitly: string truthiness (`if (s)` means `s ≠ ""`), numeric
rendering via `toString`, and the relational operator `<` on two `SemVer`
objects, which in JavaScript coerces both operands through `toString` and
compares the version *strings* lexicographically by code unit.
-/

namespace AutoAction

/-- Outcome of running the external process at some argument vector:
its exit code and the stdout chunks delivered to the stdout listener,
in emission order (source lines 383-401). -/
structure ExecOutcome where
  exitCode : Int
  stdoutChunks : List String
deriving DecidableEq

/-- Mirror of the `AutoOutput` class (source lines 525-528). -/
structure AutoOutput where
  stdout : String
  exitCode : Int
deriving DecidableEq

/-- Failure of `execAuto`: `exec.exec` rejects with the non-zero exit code
when `ignoreReturnCode` is false. -/
inductive AutoError where
  | subprocessFailure (exitCode : Int)
deriving DecidableEq

/-- State of an `AutoCommandManager` instance after initialization
(source lines 110-112).  `autoEnv` is structurally present but always empty
in the source; it plays no role in argument construction. -/
structure Invoker where
  autoCommand : String
  globalArgs : List String
  autoEnv : List (String × String)

/-- Token of the `AutoCommand` string enum (source lines 498-515). -/
def AutoCommand.info : String := "info"

/-- Token of the `AutoCommand` string enum.  A `version` member exists only
as a comment in the source enum; the version query hardcodes the literal. -/
def AutoCommand.changelog : String := "changelog"

/-- Token of the `AutoCommand` string enum. -/
def AutoCommand.release : String := "release"

/-- Token of the `AutoCommand` string enum. -/
def AutoCommand.shipit : String := "shipit"

/-- Token of the `AutoCommand` string enum. -/
def AutoCommand.latest : String := "latest"

/-- Token of the `AutoCommand` string enum. -/
def AutoCommand.next : String := "next"

/-- Token of the `AutoCommand` string enum. -/
def AutoCommand.canary : String := "canary"

/-- Token of the `AutoCommand` string enum. -/
def AutoCommand.label : String := "label"

/-- Token of the `AutoCommand` string enum. -/
def AutoCommand.prStatus : String := "pr-status"

/-- Token of the `AutoCommand` string enum. -/
def AutoCommand.prCheck : String := "pr-check"

/-- Token of the `AutoCommand` string enum. -/
def AutoCommand.prBody : String := "pr-body"

/-- Token of the `AutoCommand` string enum. -/
def AutoCommand.comment : String := "comment"

/-- Mirror of the `PrState` string enum (source lines 517-523). -/
inductive PrState where
  | pending
  | success
  | error
  | failure
deriving DecidableEq

/-- String value of a `PrState` enum member. -/
def PrState.str : PrState → String
  | .pending => "pending"
  | .success => "success"
  | .error => "error"
  | .failure => "failure"

/-- Final argument vector handed to the subprocess:
`const execArgs = [...this.globalArgs, ...args]` (source line 395). -/
def execAutoVector (st : Invoker) (args : List String) : List String :=
  st.globalArgs ++ args

/-- Mirror of `execAuto` (source lines 369-404).  `exec.exec` with
`ignoreReturnCode: allowAllExitCodes` rejects exactly when the exit code is
non-zero and `allowAllExitCodes` is false; otherwise the stdout chunks are
joined and returned together with the exit code.  The TypeScript default for
`allowAllExitCodes` is `false`; every call site in the source passes one
argument, so every call uses `false` here. -/
def execAuto (st : Invoker) (args : List String) (allowAllExitCodes : Bool)
    (run : List String → ExecOutcome) : Except AutoError AutoOutput :=
  let outcome := run (execAutoVector st args)
  if outcome.exitCode ≠ 0 ∧ allowAllExitCodes = false then
    Except.error (AutoError.subprocessFailure outcome.exitCode)
  else
    Except.ok ⟨String.join outcome.stdoutChunks, outcome.exitCode⟩

/-- Argument construction of `info` (source lines 116-123). -/
def infoArgs (listPlugins : Bool) : List String :=
  let args := [AutoCommand.info]
  if listPlugins then args ++ ["--list-plugins"] else args

/-- Argument construction of `version` (source lines 125-138).  The
subcommand token is the string literal `"version"`; the corresponding enum
member is commented out in the source. -/
def versionArgs (onlyPublishWithReleaseVersion : Bool) (fromRef : String) :
    List String :=
  let args := ["version"]
  let args :=
    if onlyPublishWithReleaseVersion then
      args ++ ["--only-publish-with-release-label"]
    else args
  if fromRef ≠ "" then args ++ ["--from", fromRef] else args

/-- Mirror of the static `commonChangelogReleaseArgs` (source lines
455-478): pushes the shared changelog/release flags onto `args`. -/
def commonChangelogReleaseArgs (args : List String)
    (dryRun noVersionPfx : Bool) (name email fromRef : String) :
    List String :=
  let args := if dryRun then args ++ ["--dry-run"] else args
  let args := if noVersionPfx then args ++ ["--no-version-prefix"] else args
  let args := if name ≠ "" then args ++ ["--name", name] else args
  let args := if email ≠ "" then args ++ ["--email", email] else args
  if fromRef ≠ "" then args ++ ["--from", fromRef] else args

/-- Argument construction of `changelog` (source lines 140-173). -/
def changelogArgs (dryRun noVersionPfx : Bool)
    (name email fromRef toRef title message baseBranch : String) :
    List String :=
  let args := [AutoCommand.changelog]
  let args := commonChangelogReleaseArgs args dryRun noVersionPfx name email fromRef
  let args := if toRef ≠ "" then args ++ ["--to", toRef] else args
  let args := if title ≠ "" then args ++ ["--title", title] else args
  let args := if message ≠ "" then args ++ ["--message", message] else args
  if baseBranch ≠ "" then args ++ ["--base-branch", baseBranch] else args

/-- Argument construction of `release` (source lines 175-204). -/
def releaseArgs (dryRun noVersionPfx : Bool)
    (name email fromRef useVersion baseBranch : String) (preRelease : Bool) :
    List String :=
  let args := [AutoCommand.release]
  let args := commonChangelogReleaseArgs args dryRun noVersionPfx name email fromRef
  let args := if useVersion ≠ "" then args ++ ["--use-version", useVersion] else args
  let args := if baseBranch ≠ "" then args ++ ["--base-branch", baseBranch] else args
  if preRelease then args ++ ["--pre-release"] else args

/-- Argument construction of `shipit` (source lines 206-222). -/
def shipitArgs (dryRun : Bool) (baseBranch : String)
    (onlyGraduateWithReleaseLabel : Bool) : List String :=
  let args := [AutoCommand.shipit]
  let args := if dryRun then args ++ ["--dry-run"] else args
  let args := if baseBranch ≠ "" then args ++ ["--base-branch", baseBranch] else args
  if onlyGraduateWithReleaseLabel then
    args ++ ["--only-graduate-with-release-label"]
  else args

/-- Argument construction of `next` (source lines 224-233). -/
def nextArgs (dryRun : Bool) (message : String) : List String :=
  let args := [AutoCommand.next]
  let args := if dryRun then args ++ ["--dry-run"] else args
  if message ≠ "" then args ++ ["--message", message] else args

/-- Argument construction of `canary` (source lines 235-259).  The
pull-request number is pushed only when strictly positive, rendered with
`toString`. -/
def canaryArgs (dryRun : Bool) (pr : Int) (build message : String)
    (force : Bool) : List String :=
  let args := [AutoCommand.canary]
  let args := if dryRun then args ++ ["--dry-run"] else args
  let args := if 0 < pr then args ++ ["--pr", toString pr] else args
  let args := if build ≠ "" then args ++ ["--build", build] else args
  let args := if message ≠ "" then args ++ ["--message", message] else args
  if force then args ++ ["--force"] else args

/-- Argument construction of `label` (source lines 261-268). -/
def labelArgs (pr : Int) : List String :=
  let args := [AutoCommand.label]
  if 0 < pr then args ++ ["--pr", toString pr] else args

/-- Argument construction of `latest` (source lines 270-279). -/
def latestArgs (dryRun : Bool) (baseBranch : String) : List String :=
  let args := [AutoCommand.latest]
  let args := if dryRun then args ++ ["--dry-run"] else args
  if baseBranch ≠ "" then args ++ ["--base-branch", baseBranch] else args

/-- Mirror of the static `commonPrArgs` (source lines 480-495): dry-run
flag, pull-request number (only when strictly positive, rendered with
`toString`), and context. -/
def commonPrArgs (args : List String) (dryRun : Bool) (pr : Int)
    (context : String) : List String :=
  let args := if dryRun then args ++ ["--dry-run"] else args
  let args := if 0 < pr then args ++ ["--pr", toString pr] else args
  if context ≠ "" then args ++ ["--context", context] else args

/-- Argument construction of `prStatus` (source lines 281-305).  `state` is
a `PrState` enum value, so the truthiness guard `if (state)` tests its
string value. -/
def prStatusArgs (dryRun : Bool) (pr : Int) (context url sha : String)
    (state : PrState) (description : String) : List String :=
  let args := [AutoCommand.prStatus]
  let args := commonPrArgs args dryRun pr context
  let args := if url ≠ "" then args ++ ["--url", url] else args
  let args := if sha ≠ "" then args ++ ["--sha", sha] else args
  let args := if state.str ≠ "" then args ++ ["--state", state.str] else args
  if description ≠ "" then args ++ ["--description", description] else args

/-- Argument construction of `prCheck` (source lines 307-320). -/
def prCheckArgs (dryRun : Bool) (pr : Int) (context url : String) :
    List String :=
  let args := [AutoCommand.prCheck]
  let args := commonPrArgs args dryRun pr context
  if url ≠ "" then args ++ ["--url", url] else args

/-- Argument construction of `prBody` (source lines 322-334). -/
def prBodyArgs (dryRun : Bool) (pr : Int) (context message : String) :
    List String :=
  let args := [AutoCommand.prBody]
  let args := commonPrArgs args dryRun pr context
  if message ≠ "" then args ++ ["--message", message] else args

/-- Argument construction of `comment` (source lines 336-356). -/
def commentArgs (dryRun : Bool) (pr : Int) (context message : String)
    (edit del : Bool) : List String :=
  let args := [AutoCommand.comment]
  let args := commonPrArgs args dryRun pr context
  let args := if message ≠ "" then args ++ ["--message", message] else args
  let args := if edit then args ++ ["--edit"] else args
  if del then args ++ ["--delete"] else args

/-- Mirror of the `info` method (source lines 116-123): awaits `execAuto`
and returns the captured stdout. -/
def info (st : Invoker) (listPlugins : Bool)
    (run : List String → ExecOutcome) : Except AutoError String :=
  Except.map AutoOutput.stdout (execAuto st (infoArgs listPlugins) false run)

/-- Mirror of the `version` method (source lines 125-138). -/
def version (st : Invoker) (onlyPublishWithReleaseVersion : Bool)
    (fromRef : String) (run : List String → ExecOutcome) :
    Except AutoError String :=
  Except.map AutoOutput.stdout
    (execAuto st (versionArgs onlyPublishWithReleaseVersion fromRef) false run)

/-- Mirror of the `changelog` method (source lines 140-173): awaits
`execAuto` and discards the output. -/
def changelog (st : Invoker) (dryRun noVersionPfx : Bool)
    (name email fromRef toRef title message baseBranch : String)
    (run : List String → ExecOutcome) : Except AutoError Unit :=
  Except.map (fun _ => ())
    (execAuto st
      (changelogArgs dryRun noVersionPfx name email fromRef toRef title message baseBranch)
      false run)

/-- Mirror of the `release` method (source lines 175-204). -/
def release (st : Invoker) (dryRun noVersionPfx : Bool)
    (name email fromRef useVersion baseBranch : String) (preRelease : Bool)
    (run : List String → ExecOutcome) : Except AutoError Unit :=
  Except.map (fun _ => ())
    (execAuto st
      (releaseArgs dryRun noVersionPfx name email fromRef useVersion baseBranch preRelease)
      false run)

/-- Mirror of the `shipit` method (source lines 206-222). -/
def shipit (st : Invoker) (dryRun : Bool) (baseBranch : String)
    (onlyGraduateWithReleaseLabel : Bool) (run : List String → ExecOutcome) :
    Except AutoError Unit :=
  Except.map (fun _ => ())
    (execAuto st (shipitArgs dryRun baseBranch onlyGraduateWithReleaseLabel) false run)

/-- Mirror of the `next` method (source lines 224-233); `next` is a Lean
keyword, hence the name. -/
def nextCmd (st : Invoker) (dryRun : Bool) (message : String)
    (run : List String → ExecOutcome) : Except AutoError Unit :=
  Except.map (fun _ => ()) (execAuto st (nextArgs dryRun message) false run)

/-- Mirror of the `canary` method (source lines 235-259). -/
def canary (st : Invoker) (dryRun : Bool) (pr : Int) (build message : String)
    (force : Bool) (run : List String → ExecOutcome) : Except AutoError Unit :=
  Except.map (fun _ => ())
    (execAuto st (canaryArgs dryRun pr build message force) false run)

/-- Mirror of the `label` method (source lines 261-268). -/
def label (st : Invoker) (pr : Int) (run : List String → ExecOutcome) :
    Except AutoError String :=
  Except.map AutoOutput.stdout (execAuto st (labelArgs pr) false run)

/-- Mirror of the `latest` method (source lines 270-279). -/
def latest (st : Invoker) (dryRun : Bool) (baseBranch : String)
    (run : List String → ExecOutcome) : Except AutoError Unit :=
  Except.map (fun _ => ())
    (execAuto st (latestArgs dryRun baseBranch) false run)

/-- Mirror of the `prStatus` method (source lines 281-305).  The source
calls `this.execAuto(args)` WITHOUT `await` (line 304), so the promise the
method returns resolves regardless of the subprocess outcome; the inner
call is made but its result, including a rejection for a non-zero exit
code, never reaches the method's caller. -/
def prStatus (st : Invoker) (dryRun : Bool) (pr : Int)
    (context url sha : String) (state : PrState) (description : String)
    (run : List String → ExecOutcome) : Except AutoError Unit :=
  let _ := execAuto st (prStatusArgs dryRun pr context url sha state description) false run
  Except.ok ()

/-- Mirror of the `prCheck` method (source lines 307-320): awaited, returns
the captured stdout. -/
def prCheck (st : Invoker) (dryRun : Bool) (pr : Int) (context url : String)
    (run : List String → ExecOutcome) : Except AutoError String :=
  Except.map AutoOutput.stdout
    (execAuto st (prCheckArgs dryRun pr context url) false run)

/-- Mirror of the `prBody` method (source lines 322-334).  As in `prStatus`,
the source does not await `this.execAuto(args)` (line 333). -/
def prBody (st : Invoker) (dryRun : Bool) (pr : Int)
    (context message : String) (run : List String → ExecOutcome) :
    Except AutoError Unit :=
  let _ := execAuto st (prBodyArgs dryRun pr context message) false run
  Except.ok ()

/-- Mirror of the `comment` method (source lines 336-356).  As in
`prStatus`, the source does not await `this.execAuto(args)` (line 355). -/
def comment (st : Invoker) (dryRun : Bool) (pr : Int)
    (context message : String) (edit del : Bool)
    (run : List String → ExecOutcome) : Except AutoError Unit :=
  let _ := execAuto st (commentArgs dryRun pr context message edit del) false run
  Except.ok ()

/-- Global argument construction at initialization (source lines 406-423):
the four conditional pairs pushed onto `this.globalArgs` in fixed order.
JavaScript truthiness makes each string guard a non-emptiness test, and the
plugin guard is `plugins && plugins.length > 0`. -/
def initGlobalArgs (repo owner githubApi : String) (plugins : List String) :
    List String :=
  let globalArgs : List String := []
  let globalArgs := if repo ≠ "" then globalArgs ++ ["--repo", repo] else globalArgs
  let globalArgs := if owner ≠ "" then globalArgs ++ ["--owner", owner] else globalArgs
  let globalArgs :=
    if githubApi ≠ "" then globalArgs ++ ["--githubApi", githubApi] else globalArgs
  if 0 < plugins.length then
    globalArgs ++ ["--plugins", "[" ++ String.intercalate " " plugins ++ "]"]
  else globalArgs

/-- Model of the JavaScript regular expression `/\d+\.\d+(\.\d+)?/` applied
at the start of a character list.  Because the digit class and the literal
dot are disjoint, the greedy `\d+` never backtracks, so maximal-munch digit
runs reproduce the JavaScript matcher exactly; the optional `(\.\d+)?`
group is tried greedily and dropped when no digit follows the dot. -/
def matchSemverAt (l : List Char) : Option (List Char) :=
  let d1 := l.takeWhile Char.isDigit
  let r1 := l.dropWhile Char.isDigit
  if d1.isEmpty then none
  else
    match r1 with
    | '.' :: r2 =>
      let d2 := r2.takeWhile Char.isDigit
      let r3 := r2.dropWhile Char.isDigit
      if d2.isEmpty then none
      else
        match r3 with
        | '.' :: r4 =>
          let d3 := r4.takeWhile Char.isDigit
          if d3.isEmpty then some (d1 ++ '.' :: d2)
          else some (d1 ++ '.' :: d2 ++ '.' :: d3)
        | _ => some (d1 ++ '.' :: d2)
    | _ => none

/-- First match of the regular expression in the list, scanning start
positions left to right as `String.prototype.match` does. -/
def findSemverMatch : List Char → Option (List Char)
  | [] => none
  | c :: rest =>
    match matchSemverAt (c :: rest) with
    | some m => some m
    | none => findSemverMatch rest

/-- Model of `stdout.match(/\d+\.\d+(\.\d+)?/)` restricted to its first
capture `match[0]` (source line 441). -/
def firstSemverMatch (s : String) : Option String :=
  (findSemverMatch s.data).map List.asString

/-- Character class trimmed by `String.prototype.trim`, restricted to the
ASCII white space and line terminators that can occur in tool output. -/
def isJsSpace (c : Char) : Bool :=
  c == ' ' || c == '\t' || c == '\n' || c == '\r' || c == '\x0b' || c == '\x0c'

/-- Model of `String.prototype.trim`: drop leading and trailing white
space. -/
def jsTrim (s : String) : String :=
  (((s.data.dropWhile isJsSpace).reverse.dropWhile isJsSpace).reverse).asString

/-- Model of `String.prototype.includes` for a single character. -/
def jsIncludes (s : String) (c : Char) : Bool :=
  s.data.contains c

/-- Splitting a character list at every `'.'`, as
`String.prototype.split('.')` does (an empty string yields one empty
component, `"a..b"` yields an empty middle component, and so on). -/
def splitDots : List Char → List (List Char)
  | [] => [[]]
  | c :: rest =>
    let r := splitDots rest
    if c = '.' then [] :: r
    else
      match r with
      | h :: t => (c :: h) :: t
      | [] => [[c]]

/-- Numeric identifier as accepted by the semver grammar: a non-empty digit
run with no leading zero. -/
def isNumericIdent (t : List Char) : Bool :=
  !t.isEmpty && t.all Char.isDigit && (t == ['0'] || !(t.head? == some '0'))

/-- Model of `semver.valid` (source line 442) on the strings the regex can
produce: such a string is made of digit runs separated by dots, so it is a
valid semantic version exactly when it has all three of major, minor and
patch, each without leading zeros.  Prerelease and build suffixes cannot
occur in a regex match (no `-` or `+` is matchable) and are not modelled. -/
def semverValid (s : String) : Bool :=
  match splitDots s.data with
  | [a, b, c] => isNumericIdent a && isNumericIdent b && isNumericIdent c
  | _ => false

/-- Mirror of the parsed `SemVer` object: its three numeric components. -/
structure SemVer where
  major : Nat
  minor : Nat
  patch : Nat
deriving DecidableEq

/-- The normalized `version` string of a `SemVer`, which is what
`SemVer.prototype.toString` returns. -/
def SemVer.versionString (v : SemVer) : String :=
  toString v.major ++ "." ++ toString v.minor ++ "." ++ toString v.patch

/-- Mirror of `MinimumAutoVersion = new SemVer('9.25.0')` (source line 8). -/
def MinimumAutoVersion : SemVer := ⟨9, 25, 0⟩

/-- Decimal value of a digit run. -/
def digitsToNat (t : List Char) : Nat :=
  t.foldl (fun n c => 10 * n + (c.toNat - '0'.toNat)) 0

/-- Construction of `new SemVer(m)` for a string that passed `semverValid`:
split on dots and read the three numeric components. -/
def parseSemVer (s : String) : SemVer :=
  match splitDots s.data with
  | [a, b, c] => ⟨digitsToNat a, digitsToNat b, digitsToNat c⟩
  | _ => ⟨0, 0, 0⟩

/-- Lexicographic code-unit comparison of character lists: the JavaScript
string `<` operator. -/
def jsCharsLt : List Char → List Char → Bool
  | [], [] => false
  | [], _ :: _ => true
  | _ :: _, [] => false
  | a :: as, b :: bs => if a < b then true else if b < a then false else jsCharsLt as bs

/-- The JavaScript `<` operator on two strings. -/
def jsStringLt (a b : String) : Bool :=
  jsCharsLt a.data b.data

/-- Errors thrown by `initializeCommandManager`'s version check (source
lines 436-453): VersionUnparseable is the message "Unable to determine the
auto version"; VersionTooOld carries the required and actual version
strings interpolated into its message. -/
inductive InitError where
  | versionUnparseable
  | versionTooOld (required actual : String)
deriving DecidableEq

/-- Mirror of the version check in `initializeCommandManager` (source lines
436-453), as a function of the stdout captured from running the resolved
executable with `--version`.  The guard `autoVersion < MinimumAutoVersion`
compares two `SemVer` OBJECTS with the JavaScript `<` operator: both
operands are coerced through `toString` (the class defines no `valueOf`),
so the comparison is lexicographic on the version strings, not the
semantic-version order. -/
def initVersionCheck (rawStdout : String) : Except InitError Unit :=
  let stdout := jsTrim rawStdout
  if !(jsIncludes stdout '\n') then
    match firstSemverMatch stdout with
    | none => Except.error InitError.versionUnparseable
    | some m =>
      if !(semverValid m) then Except.error InitError.versionUnparseable
      else
        let autoVersion := parseSemVer m
        if jsStringLt autoVersion.versionString MinimumAutoVersion.versionString then
          Except.error
            (InitError.versionTooOld MinimumAutoVersion.versionString
              autoVersion.versionString)
        else Except.ok ()
  else Except.ok ()

/-- Modelled from the spec, for comparison with the code: the
semantic-version order the specification prescribes for the minimum-version
check ("below a minimum-required version constant" in semantic-version
order), i.e. lexicographic comparison of the NUMERIC components. -/
def specSemverLt (a b : SemVer) : Bool :=
  decide (a.major < b.major) ||
    (a.major == b.major &&
      (decide (a.minor < b.minor) ||
        (a.minor == b.minor && decide (a.patch < b.patch))))

/-- Flag tokens the canary operation can emit; used to state that flag
appearance is equivalent to its guard whenever the free-text inputs do not
collide with a flag token. -/
def canaryFlagTokens : List String :=
  ["--dry-run", "--pr", "--build", "--message", "--force"]

/-! Helper lemmas shared by the claim theorems. -/

/-- Mapping a function over an `Except` value preserves `isOk`. -/
theorem isOk_map {ε : Type} {α β : Type} (f : α → β) (e : Except ε α) :
    (Except.map f e).isOk = e.isOk := by
  cases e <;> rfl

/-- When the subprocess exits non-zero and exit codes are not tolerated,
`execAuto` fails with that exit code. -/
theorem execAuto_fails (st : Invoker) (args : List String)
    (run : List String → ExecOutcome)
    (h : (run (execAutoVector st args)).exitCode ≠ 0) :
    execAuto st args false run =
      Except.error
        (AutoError.subprocessFailure (run (execAutoVector st args)).exitCode) := by
  simp [execAuto, h]

/-- Distributing a conditional push over the accumulated prefix: pushing a
segment onto `X` when `c` holds is appending the gated segment. -/
theorem append_ite {α : Type} (X s : List α) (c : Prop) [Decidable c] :
    (if c then X ++ s else X) = X ++ (if c then s else []) := by
  split_ifs <;> simp

/-- Membership in a gated segment: the element is in the segment and the
guard holds. -/
theorem mem_ite_nil {α : Type} (a : α) (c : Prop) [Decidable c]
    (l : List α) : a ∈ (if c then l else []) ↔ c ∧ a ∈ l := by
  split_ifs <;> simp_all

/-- Gated-segment normal form of `infoArgs`. -/
theorem infoArgs_eq (lp : Bool) :
    infoArgs lp = ["info"] ++ (if lp then ["--list-plugins"] else []) := by
  simp only [infoArgs, AutoCommand.info]
  split_ifs <;> simp

/-- Gated-segment normal form of `versionArgs`. -/
theorem versionArgs_eq (opb : Bool) (fromRef : String) :
    versionArgs opb fromRef =
      ["version"] ++ (if opb then ["--only-publish-with-release-label"] else [])
        ++ (if fromRef ≠ "" then ["--from", fromRef] else []) := by
  simp only [versionArgs, append_ite]

/-- Gated-segment normal form of `commonChangelogReleaseArgs`. -/
theorem commonChangelogReleaseArgs_eq (args : List String)
    (d nvp : Bool) (name email fromRef : String) :
    commonChangelogReleaseArgs args d nvp name email fromRef =
      args ++ (if d then ["--dry-run"] else [])
        ++ (if nvp then ["--no-version-prefix"] else [])
        ++ (if name ≠ "" then ["--name", name] else [])
        ++ (if email ≠ "" then ["--email", email] else [])
        ++ (if fromRef ≠ "" then ["--from", fromRef] else []) := by
  simp only [commonChangelogReleaseArgs, append_ite]

/-- Gated-segment normal form of `changelogArgs`. -/
theorem changelogArgs_eq (d nvp : Bool)
    (name email fromRef toRef title message baseBranch : String) :
    changelogArgs d nvp name email fromRef toRef title message baseBranch =
      ["changelog"] ++ (if d then ["--dry-run"] else [])
        ++ (if nvp then ["--no-version-prefix"] else [])
        ++ (if name ≠ "" then ["--name", name] else [])
        ++ (if email ≠ "" then ["--email", email] else [])
        ++ (if fromRef ≠ "" then ["--from", fromRef] else [])
        ++ (if toRef ≠ "" then ["--to", toRef] else [])
        ++ (if title ≠ "" then ["--title", title] else [])
        ++ (if message ≠ "" then ["--message", message] else [])
        ++ (if baseBranch ≠ "" then ["--base-branch", baseBranch] else []) := by
  simp only [changelogArgs, commonChangelogReleaseArgs_eq, AutoCommand.changelog, append_ite]

/-- Gated-segment normal form of `releaseArgs`. -/
theorem releaseArgs_eq (d nvp : Bool)
    (name email fromRef useVersion baseBranch : String) (pre : Bool) :
    releaseArgs d nvp name email fromRef useVersion baseBranch pre =
      ["release"] ++ (if d then ["--dry-run"] else [])
        ++ (if nvp then ["--no-version-prefix"] else [])
        ++ (if name ≠ "" then ["--name", name] else [])
        ++ (if email ≠ "" then ["--email", email] else [])
        ++ (if fromRef ≠ "" then ["--from", fromRef] else [])
        ++ (if useVersion ≠ "" then ["--use-version", useVersion] else [])
        ++ (if baseBranch ≠ "" then ["--base-branch", baseBranch] else [])
        ++ (if pre then ["--pre-release"] else []) := by
  simp only [releaseArgs, commonChangelogReleaseArgs_eq, AutoCommand.release, append_ite]

/-- Gated-segment normal form of `shipitArgs`. -/
theorem shipitArgs_eq (d : Bool) (baseBranch : String) (ogl : Bool) :
    shipitArgs d baseBranch ogl =
      ["shipit"] ++ (if d then ["--dry-run"] else [])
        ++ (if baseBranch ≠ "" then ["--base-branch", baseBranch] else [])
        ++ (if ogl then ["--only-graduate-with-release-label"] else []) := by
  simp only [shipitArgs, AutoCommand.shipit, append_ite]

/-- Gated-segment normal form of `latestArgs`. -/
theorem latestArgs_eq (d : Bool) (baseBranch : String) :
    latestArgs d baseBranch =
      ["latest"] ++ (if d then ["--dry-run"] else [])
        ++ (if baseBranch ≠ "" then ["--base-branch", baseBranch] else []) := by
  simp only [latestArgs, AutoCommand.latest, append_ite]

/-- Gated-segment normal form of `nextArgs`. -/
theorem nextArgs_eq (d : Bool) (message : String) :
    nextArgs d message =
      ["next"] ++ (if d then ["--dry-run"] else [])
        ++ (if message ≠ "" then ["--message", message] else []) := by
  simp only [nextArgs, AutoCommand.next, append_ite]

/-- Gated-segment normal form of `canaryArgs`. -/
theorem canaryArgs_eq (d : Bool) (pr : Int) (build message : String)
    (force : Bool) :
    canaryArgs d pr build message force =
      ["canary"] ++ (if d then ["--dry-run"] else [])
        ++ (if 0 < pr then ["--pr", toString pr] else [])
        ++ (if build ≠ "" then ["--build", build] else [])
        ++ (if message ≠ "" then ["--message", message] else [])
        ++ (if force then ["--force"] else []) := by
  simp only [canaryArgs, AutoCommand.canary, append_ite]

/-- Gated-segment normal form of `labelArgs`. -/
theorem labelArgs_eq (pr : Int) :
    labelArgs pr =
      ["label"] ++ (if 0 < pr then ["--pr", toString pr] else []) := by
  simp only [labelArgs, AutoCommand.label, append_ite]

/-- Gated-segment normal form of `commonPrArgs`. -/
theorem commonPrArgs_eq (seed : List String) (d : Bool) (pr : Int)
    (ctx : String) :
    commonPrArgs seed d pr ctx =
      seed ++ (if d then ["--dry-run"] else [])
        ++ (if 0 < pr then ["--pr", toString pr] else [])
        ++ (if ctx ≠ "" then ["--context", ctx] else []) := by
  simp only [commonPrArgs, append_ite]

/-- Gated-segment normal form of `prStatusArgs`. -/
theorem prStatusArgs_eq (d : Bool) (pr : Int) (ctx url sha : String)
    (state : PrState) (description : String) :
    prStatusArgs d pr ctx url sha state description =
      ["pr-status"] ++ (if d then ["--dry-run"] else [])
        ++ (if 0 < pr then ["--pr", toString pr] else [])
        ++ (if ctx ≠ "" then ["--context", ctx] else [])
        ++ (if url ≠ "" then ["--url", url] else [])
        ++ (if sha ≠ "" then ["--sha", sha] else [])
        ++ (if state.str ≠ "" then ["--state", state.str] else [])
        ++ (if description ≠ "" then ["--description", description] else []) := by
  simp only [prStatusArgs, commonPrArgs_eq, AutoCommand.prStatus, append_ite]

/-- Gated-segment normal form of `prCheckArgs`. -/
theorem prCheckArgs_eq (d : Bool) (pr : Int) (ctx url : String) :
    prCheckArgs d pr ctx url =
      ["pr-check"] ++ (if d then ["--dry-run"] else [])
        ++ (if 0 < pr then ["--pr", toString pr] else [])
        ++ (if ctx ≠ "" then ["--context", ctx] else [])
        ++ (if url ≠ "" then ["--url", url] else []) := by
  simp only [prCheckArgs, commonPrArgs_eq, AutoCommand.prCheck, append_ite]

/-- Gated-segment normal form of `prBodyArgs`. -/
theorem prBodyArgs_eq (d : Bool) (pr : Int) (ctx message : String) :
    prBodyArgs d pr ctx message =
      ["pr-body"] ++ (if d then ["--dry-run"] else [])
        ++ (if 0 < pr then ["--pr", toString pr] else [])
        ++ (if ctx ≠ "" then ["--context", ctx] else [])
        ++ (if message ≠ "" then ["--message", message] else []) := by
  simp only [prBodyArgs, commonPrArgs_eq, AutoCommand.prBody, append_ite]

/-- Gated-segment normal form of `commentArgs`. -/
theorem commentArgs_eq (d : Bool) (pr : Int) (ctx message : String)
    (edit del : Bool) :
    commentArgs d pr ctx message edit del =
      ["comment"] ++ (if d then ["--dry-run"] else [])
        ++ (if 0 < pr then ["--pr", toString pr] else [])
        ++ (if ctx ≠ "" then ["--context", ctx] else [])
        ++ (if message ≠ "" then ["--message", message] else [])
        ++ (if edit then ["--edit"] else [])
        ++ (if del then ["--delete"] else []) := by
  simp only [commentArgs, commonPrArgs_eq, AutoCommand.comment, append_ite]

/-! Claim theorems. -/

/-- C4: for all inputs, the global argument list built at initialization is
exactly the concatenation, in the fixed order repo, owner, githubApi,
plugins, of the four pairs, each pair present (flag immediately followed by
its value) precisely when its input is non-empty and omitted entirely
otherwise. -/
theorem global_args_shape (repo owner githubApi : String)
    (plugins : List String) :
    initGlobalArgs repo owner githubApi plugins =
      (if repo ≠ "" then ["--repo", repo] else [])
        ++ (if owner ≠ "" then ["--owner", owner] else [])
        ++ (if githubApi ≠ "" then ["--githubApi", githubApi] else [])
        ++ (if plugins ≠ [] then
              ["--plugins", "[" ++ String.intercalate " " plugins ++ "]"]
            else []) := by
  simp only [initGlobalArgs]
  split_ifs with h1 h2 h3 h4 <;>
    simp_all [List.length_pos]

/-- C5: for every operation and every input, the final vector handed to the
subprocess is the global argument list followed by the command-specific
arguments.  Every operation delegates to `execAuto`, whose final vector is
`execAutoVector st args = st.globalArgs ++ args`; moreover the result of
`execAuto` depends on the external process only through its behaviour at
exactly that vector. -/
theorem global_args_precede (st : Invoker) (args : List String)
    (allow : Bool) (run₁ run₂ : List String → ExecOutcome)
    (h : run₁ (st.globalArgs ++ args) = run₂ (st.globalArgs ++ args)) :
    execAutoVector st args = st.globalArgs ++ args ∧
      execAuto st args allow run₁ = execAuto st args allow run₂ := by
  refine ⟨rfl, ?_⟩
  simp only [execAuto, execAutoVector, h]

/-- Witness for C5 at a concrete invoker and argument list: the two runners
agree at the vector `["--repo", "r", "info"]` and nowhere else need to. -/
theorem global_args_precede_witness :
    execAutoVector ⟨"auto", ["--repo", "r"], []⟩ ["info"] =
        ["--repo", "r"] ++ ["info"] ∧
      execAuto ⟨"auto", ["--repo", "r"], []⟩ ["info"] false
          (fun _ => ⟨0, ["out"]⟩) =
        execAuto ⟨"auto", ["--repo", "r"], []⟩ ["info"] false
          (fun v => if v = ["--repo", "r", "info"] then ⟨0, ["out"]⟩ else ⟨1, []⟩) :=
  global_args_precede ⟨"auto", ["--repo", "r"], []⟩ ["info"] false
    (fun _ => ⟨0, ["out"]⟩)
    (fun v => if v = ["--repo", "r", "info"] then ⟨0, ["out"]⟩ else ⟨1, []⟩)
    (by decide)

/-- C6: flag gating.  For every operation, the constructed vector is the
subcommand token followed by each optional flag segment exactly when its
guard holds: true for booleans, non-emptiness for strings, and strict
positivity for pull-request numbers (zero or negative omits `--pr`
entirely); an emitted flag is always immediately followed by its (then
non-empty, non-default) value.  For the canary operation, whose free-text
inputs could in principle coincide with a flag token, flag membership in
the vector is moreover equivalent to the guard whenever the build and
message inputs and the rendered pull-request number are not themselves flag
tokens. -/
theorem flag_gating (d nvp pre ogl force edit del lp opb : Bool) (pr : Int)
    (name email fromRef toRef title message baseBranch useVersion build ctx
      url sha description : String) (state : PrState) (seed : List String)
    (hb : build ∉ canaryFlagTokens) (hm : message ∉ canaryFlagTokens)
    (hpr : toString pr ∉ canaryFlagTokens) :
    (infoArgs lp = ["info"] ++ (if lp then ["--list-plugins"] else [])) ∧
    (versionArgs opb fromRef =
      ["version"] ++ (if opb then ["--only-publish-with-release-label"] else [])
        ++ (if fromRef ≠ "" then ["--from", fromRef] else [])) ∧
    (changelogArgs d nvp name email fromRef toRef title message baseBranch =
      ["changelog"] ++ (if d then ["--dry-run"] else [])
        ++ (if nvp then ["--no-version-prefix"] else [])
        ++ (if name ≠ "" then ["--name", name] else [])
        ++ (if email ≠ "" then ["--email", email] else [])
        ++ (if fromRef ≠ "" then ["--from", fromRef] else [])
        ++ (if toRef ≠ "" then ["--to", toRef] else [])
        ++ (if title ≠ "" then ["--title", title] else [])
        ++ (if message ≠ "" then ["--message", message] else [])
        ++ (if baseBranch ≠ "" then ["--base-branch", baseBranch] else [])) ∧
    (releaseArgs d nvp name email fromRef useVersion baseBranch pre =
      ["release"] ++ (if d then ["--dry-run"] else [])
        ++ (if nvp then ["--no-version-prefix"] else [])
        ++ (if name ≠ "" then ["--name", name] else [])
        ++ (if email ≠ "" then ["--email", email] else [])
        ++ (if fromRef ≠ "" then ["--from", fromRef] else [])
        ++ (if useVersion ≠ "" then ["--use-version", useVersion] else [])
        ++ (if baseBranch ≠ "" then ["--base-branch", baseBranch] else [])
        ++ (if pre then ["--pre-release"] else [])) ∧
    (shipitArgs d baseBranch ogl =
      ["shipit"] ++ (if d then ["--dry-run"] else [])
        ++ (if baseBranch ≠ "" then ["--base-branch", baseBranch] else [])
        ++ (if ogl then ["--only-graduate-with-release-label"] else [])) ∧
    (latestArgs d baseBranch =
      ["latest"] ++ (if d then ["--dry-run"] else [])
        ++ (if baseBranch ≠ "" then ["--base-branch", baseBranch] else [])) ∧
    (nextArgs d message =
      ["next"] ++ (if d then ["--dry-run"] else [])
        ++ (if message ≠ "" then ["--message", message] else [])) ∧
    (canaryArgs d pr build message force =
      ["canary"] ++ (if d then ["--dry-run"] else [])
        ++ (if 0 < pr then ["--pr", toString pr] else [])
        ++ (if build ≠ "" then ["--build", build] else [])
        ++ (if message ≠ "" then ["--message", message] else [])
        ++ (if force then ["--force"] else [])) ∧
    (labelArgs pr =
      ["label"] ++ (if 0 < pr then ["--pr", toString pr] else [])) ∧
    (commonPrArgs seed d pr ctx =
      seed ++ (if d then ["--dry-run"] else [])
        ++ (if 0 < pr then ["--pr", toString pr] else [])
        ++ (if ctx ≠ "" then ["--context", ctx] else [])) ∧
    (prStatusArgs d pr ctx url sha state description =
      ["pr-status"] ++ (if d then ["--dry-run"] else [])
        ++ (if 0 < pr then ["--pr", toString pr] else [])
        ++ (if ctx ≠ "" then ["--context", ctx] else [])
        ++ (if url ≠ "" then ["--url", url] else [])
        ++ (if sha ≠ "" then ["--sha", sha] else [])
        ++ (if state.str ≠ "" then ["--state", state.str] else [])
        ++ (if description ≠ "" then ["--description", description] else [])) ∧
    (prCheckArgs d pr ctx url =
      ["pr-check"] ++ (if d then ["--dry-run"] else [])
        ++ (if 0 < pr then ["--pr", toString pr] else [])
        ++ (if ctx ≠ "" then ["--context", ctx] else [])
        ++ (if url ≠ "" then ["--url", url] else [])) ∧
    (prBodyArgs d pr ctx message =
      ["pr-body"] ++ (if d then ["--dry-run"] else [])
        ++ (if 0 < pr then ["--pr", toString pr] else [])
        ++ (if ctx ≠ "" then ["--context", ctx] else [])
        ++ (if message ≠ "" then ["--message", message] else [])) ∧
    (commentArgs d pr ctx message edit del =
      ["comment"] ++ (if d then ["--dry-run"] else [])
        ++ (if 0 < pr then ["--pr", toString pr] else [])
        ++ (if ctx ≠ "" then ["--context", ctx] else [])
        ++ (if message ≠ "" then ["--message", message] else [])
        ++ (if edit then ["--edit"] else [])
        ++ (if del then ["--delete"] else [])) ∧
    ("--dry-run" ∈ canaryArgs d pr build message force ↔ d = true) ∧
    ("--pr" ∈ canaryArgs d pr build message force ↔ 0 < pr) ∧
    ("--build" ∈ canaryArgs d pr build message force ↔ build ≠ "") ∧
    ("--message" ∈ canaryArgs d pr build message force ↔ message ≠ "") ∧
    ("--force" ∈ canaryArgs d pr build message force ↔ force = true) ∧
    (pr ≤ 0 → "--pr" ∉ canaryArgs d pr build message force) := by
  simp only [canaryFlagTokens, List.mem_cons, List.mem_singleton, not_or,
    List.not_mem_nil] at hb hm hpr
  obtain ⟨hb1, hb2, hb3, hb4, hb5, -⟩ := hb
  obtain ⟨hm1, hm2, hm3, hm4, hm5, -⟩ := hm
  obtain ⟨hp1, hp2, hp3, hp4, hp5, -⟩ := hpr
  refine ⟨infoArgs_eq lp, versionArgs_eq opb fromRef,
    changelogArgs_eq d nvp name email fromRef toRef title message baseBranch,
    releaseArgs_eq d nvp name email fromRef useVersion baseBranch pre,
    shipitArgs_eq d baseBranch ogl, latestArgs_eq d baseBranch,
    nextArgs_eq d message, canaryArgs_eq d pr build message force,
    labelArgs_eq pr, commonPrArgs_eq seed d pr ctx,
    prStatusArgs_eq d pr ctx url sha state description,
    prCheckArgs_eq d pr ctx url, prBodyArgs_eq d pr ctx message,
    commentArgs_eq d pr ctx message edit del, ?_, ?_, ?_, ?_, ?_, ?_⟩
  · rw [canaryArgs_eq]
    simp [List.mem_append, mem_ite_nil, Ne.symm hb1, Ne.symm hm1, Ne.symm hp1]
  · rw [canaryArgs_eq]
    simp [List.mem_append, mem_ite_nil, Ne.symm hb2, Ne.symm hm2]
  · rw [canaryArgs_eq]
    simp [List.mem_append, mem_ite_nil, Ne.symm hm3, Ne.symm hp3]
  · rw [canaryArgs_eq]
    simp [List.mem_append, mem_ite_nil, Ne.symm hb4, Ne.symm hp4]
  · rw [canaryArgs_eq]
    simp [List.mem_append, mem_ite_nil, Ne.symm hb5, Ne.symm hm5, Ne.symm hp5]
  · intro hle
    rw [canaryArgs_eq]
    simp [List.mem_append, mem_ite_nil, Ne.symm hb2, Ne.symm hm2,
      not_lt.mpr hle]

/-- Witness for C6 at concrete inputs where no free-text value collides
with a flag token. -/
theorem flag_gating_witness :
    (infoArgs true = ["info"] ++ (if true then ["--list-plugins"] else [])) ∧
    (versionArgs false "f" =
      ["version"] ++ (if false then ["--only-publish-with-release-label"] else [])
        ++ (if "f" ≠ "" then ["--from", "f"] else [])) ∧
    (changelogArgs true false "n" "e" "f" "t" "ti" "msg" "bb" =
      ["changelog"] ++ (if true then ["--dry-run"] else [])
        ++ (if false then ["--no-version-prefix"] else [])
        ++ (if "n" ≠ "" then ["--name", "n"] else [])
        ++ (if "e" ≠ "" then ["--email", "e"] else [])
        ++ (if "f" ≠ "" then ["--from", "f"] else [])
        ++ (if "t" ≠ "" then ["--to", "t"] else [])
        ++ (if "ti" ≠ "" then ["--title", "ti"] else [])
        ++ (if "msg" ≠ "" then ["--message", "msg"] else [])
        ++ (if "bb" ≠ "" then ["--base-branch", "bb"] else [])) ∧
    (releaseArgs true false "n" "e" "f" "uv" "bb" true =
      ["release"] ++ (if true then ["--dry-run"] else [])
        ++ (if false then ["--no-version-prefix"] else [])
        ++ (if "n" ≠ "" then ["--name", "n"] else [])
        ++ (if "e" ≠ "" then ["--email", "e"] else [])
        ++ (if "f" ≠ "" then ["--from", "f"] else [])
        ++ (if "uv" ≠ "" then ["--use-version", "uv"] else [])
        ++ (if "bb" ≠ "" then ["--base-branch", "bb"] else [])
        ++ (if true then ["--pre-release"] else [])) ∧
    (shipitArgs true "bb" false =
      ["shipit"] ++ (if true then ["--dry-run"] else [])
        ++ (if "bb" ≠ "" then ["--base-branch", "bb"] else [])
        ++ (if false then ["--only-graduate-with-release-label"] else [])) ∧
    (latestArgs true "bb" =
      ["latest"] ++ (if true then ["--dry-run"] else [])
        ++ (if "bb" ≠ "" then ["--base-branch", "bb"] else [])) ∧
    (nextArgs true "msg" =
      ["next"] ++ (if true then ["--dry-run"] else [])
        ++ (if "msg" ≠ "" then ["--message", "msg"] else [])) ∧
    (canaryArgs true 2 "bld" "msg" false =
      ["canary"] ++ (if true then ["--dry-run"] else [])
        ++ (if 0 < (2 : Int) then ["--pr", toString (2 : Int)] else [])
        ++ (if "bld" ≠ "" then ["--build", "bld"] else [])
        ++ (if "msg" ≠ "" then ["--message", "msg"] else [])
        ++ (if false then ["--force"] else [])) ∧
    (labelArgs 2 =
      ["label"] ++ (if 0 < (2 : Int) then ["--pr", toString (2 : Int)] else [])) ∧
    (commonPrArgs ["x"] true 2 "c" =
      ["x"] ++ (if true then ["--dry-run"] else [])
        ++ (if 0 < (2 : Int) then ["--pr", toString (2 : Int)] else [])
        ++ (if "c" ≠ "" then ["--context", "c"] else [])) ∧
    (prStatusArgs true 2 "c" "u" "s" PrState.pending "de" =
      ["pr-status"] ++ (if true then ["--dry-run"] else [])
        ++ (if 0 < (2 : Int) then ["--pr", toString (2 : Int)] else [])
        ++ (if "c" ≠ "" then ["--context", "c"] else [])
        ++ (if "u" ≠ "" then ["--url", "u"] else [])
        ++ (if "s" ≠ "" then ["--sha", "s"] else [])
        ++ (if PrState.pending.str ≠ "" then ["--state", PrState.pending.str] else [])
        ++ (if "de" ≠ "" then ["--description", "de"] else [])) ∧
    (prCheckArgs true 2 "c" "u" =
      ["pr-check"] ++ (if true then ["--dry-run"] else [])
        ++ (if 0 < (2 : Int) then ["--pr", toString (2 : Int)] else [])
        ++ (if "c" ≠ "" then ["--context", "c"] else [])
        ++ (if "u" ≠ "" then ["--url", "u"] else [])) ∧
    (prBodyArgs true 2 "c" "msg" =
      ["pr-body"] ++ (if true then ["--dry-run"] else [])
        ++ (if 0 < (2 : Int) then ["--pr", toString (2 : Int)] else [])
        ++ (if "c" ≠ "" then ["--context", "c"] else [])
        ++ (if "msg" ≠ "" then ["--message", "msg"] else [])) ∧
    (commentArgs true 2 "c" "msg" true false =
      ["comment"] ++ (if true then ["--dry-run"] else [])
        ++ (if 0 < (2 : Int) then ["--pr", toString (2 : Int)] else [])
        ++ (if "c" ≠ "" then ["--context", "c"] else [])
        ++ (if "msg" ≠ "" then ["--message", "msg"] else [])
        ++ (if true then ["--edit"] else [])
        ++ (if false then ["--delete"] else [])) ∧
    ("--dry-run" ∈ canaryArgs true 2 "bld" "msg" false ↔ true = true) ∧
    ("--pr" ∈ canaryArgs true 2 "bld" "msg" false ↔ 0 < (2 : Int)) ∧
    ("--build" ∈ canaryArgs true 2 "bld" "msg" false ↔ "bld" ≠ "") ∧
    ("--message" ∈ canaryArgs true 2 "bld" "msg" false ↔ "msg" ≠ "") ∧
    ("--force" ∈ canaryArgs true 2 "bld" "msg" false ↔ false = true) ∧
    ((2 : Int) ≤ 0 → "--pr" ∉ canaryArgs true 2 "bld" "msg" false) :=
  flag_gating true false true false false true false true false 2
    "n" "e" "f" "t" "ti" "msg" "bb" "uv" "bld" "c" "u" "s" "de"
    PrState.pending ["x"] (by decide) (by decide) (by decide)

/-- C7: the release operation called with dryRun=true, noVersionPrefix
false, name "bot", email "bot@x.com", from "v1.0.0", empty useVersion and
baseBranch, and preRelease false yields exactly the command-specific vector
["release", "--dry-run", "--name", "bot", "--email", "bot@x.com", "--from",
"v1.0.0"], appended after the global arguments. -/
theorem release_scenario (st : Invoker) :
    execAutoVector st
        (releaseArgs true false "bot" "bot@x.com" "v1.0.0" "" "" false) =
      st.globalArgs ++
        ["release", "--dry-run", "--name", "bot", "--email", "bot@x.com",
          "--from", "v1.0.0"] := by
  rfl

/-- C8: the comment operation called with dryRun=false, pr=42, context
"ci", message "done", edit=false, del=true yields exactly ["comment",
"--pr", "42", "--context", "ci", "--message", "done", "--delete"], the
pull-request number rendered as the decimal string "42" in its own vector
element. -/
theorem comment_scenario :
    commentArgs false 42 "ci" "done" false true =
      ["comment", "--pr", "42", "--context", "ci", "--message", "done",
        "--delete"] := by
  rfl

/-- C9: whenever the trimmed `--version` output still contains a newline
(more than one line), the version extraction and the minimum-version check
are skipped entirely and the check succeeds, with neither
VersionUnparseable nor VersionTooOld. -/
theorem multiline_skips_version_check (out : String)
    (h : jsIncludes (jsTrim out) '\n' = true) :
    initVersionCheck out = Except.ok () := by
  simp [initVersionCheck, h]

/-- Witness for C9: a two-line diagnostic banner passes the check. -/
theorem multiline_skips_version_check_witness :
    (jsIncludes (jsTrim "auto v9\nplugins loaded") '\n' = true) ∧
      initVersionCheck "auto v9\nplugins loaded" = Except.ok () :=
  ⟨by decide, multiline_skips_version_check "auto v9\nplugins loaded" (by decide)⟩

/-- Counterexample to C1 as stated: for the single-line output "9.25" the
regex does extract "9.25", but `semver.valid` rejects a two-part version,
so initialization fails with VersionUnparseable, contrary to the claim that
"9.25" yields a valid semantic version. -/
theorem two_part_version_unparseable :
    firstSemverMatch "9.25" = some "9.25" ∧
      semverValid "9.25" = false ∧
      initVersionCheck "9.25" = Except.error InitError.versionUnparseable := by
  refine ⟨rfl, rfl, rfl⟩

/-- C1 amended: for the single-line outputs "9.25.0" and "v9.25.0 stable"
the extraction succeeds with the valid semantic version "9.25.0" and
initialization does not fail; for "9.25" the extracted substring "9.25" is
not a syntactically valid semantic version, so parsing fails with
VersionUnparseable; for "no version here" no substring matches and parsing
fails with VersionUnparseable. -/
theorem version_parse_examples :
    firstSemverMatch "9.25.0" = some "9.25.0" ∧
      semverValid "9.25.0" = true ∧
      initVersionCheck "9.25.0" = Except.ok () ∧
      firstSemverMatch "v9.25.0 stable" = some "9.25.0" ∧
      initVersionCheck "v9.25.0 stable" = Except.ok () ∧
      firstSemverMatch "9.25" = some "9.25" ∧
      initVersionCheck "9.25" = Except.error InitError.versionUnparseable ∧
      firstSemverMatch "no version here" = none ∧
      initVersionCheck "no version here" =
        Except.error InitError.versionUnparseable := by
  refine ⟨rfl, rfl, rfl, rfl, rfl, rfl, rfl, rfl, rfl⟩

/-- C2 is contradicted by the code: the guard `autoVersion <
MinimumAutoVersion` compares two `SemVer` objects with the JavaScript `<`
operator, which coerces both to their version STRINGS and compares
lexicographically.  Hence the parsed version "10.0.0" (not below 9.25.0 in
semantic-version order, so the claim says initialization succeeds) is
rejected with VersionTooOld, while "9.3.0" (below 9.25.0 in
semantic-version order, so the claim says initialization fails) is
accepted.  The claim's three examples do behave as stated. -/
theorem version_compare_is_lexicographic :
    initVersionCheck "10.0.0" =
        Except.error (InitError.versionTooOld "9.25.0" "10.0.0") ∧
      specSemverLt ⟨10, 0, 0⟩ MinimumAutoVersion = false ∧
      initVersionCheck "9.3.0" = Except.ok () ∧
      specSemverLt ⟨9, 3, 0⟩ MinimumAutoVersion = true ∧
      initVersionCheck "9.24.0" =
        Except.error (InitError.versionTooOld "9.25.0" "9.24.0") ∧
      initVersionCheck "9.25.0" = Except.ok () ∧
      initVersionCheck "9.26.1" = Except.ok () := by
  refine ⟨rfl, rfl, rfl, rfl, rfl, rfl, rfl⟩

/-- C3 is contradicted by the code: `prStatus`, `prBody` and `comment` call
`this.execAuto(args)` without awaiting it, so even though the inner
`execAuto` invocation fails on a non-zero exit code (as the last three
conjuncts show for the exact argument vectors these operations build), the
operations themselves resolve successfully and the failure never reaches
their immediate caller. -/
theorem fire_and_forget_drops_failure :
    prStatus ⟨"auto", [], []⟩ false 7 "ci" "" "" PrState.pending ""
        (fun _ => ⟨1, []⟩) = Except.ok () ∧
      prBody ⟨"auto", [], []⟩ false 7 "ci" "done" (fun _ => ⟨1, []⟩) =
        Except.ok () ∧
      comment ⟨"auto", [], []⟩ false 7 "ci" "done" false false
        (fun _ => ⟨1, []⟩) = Except.ok () ∧
      (execAuto ⟨"auto", [], []⟩ (prStatusArgs false 7 "ci" "" "" PrState.pending "")
          false (fun _ => ⟨1, []⟩)).isOk = false ∧
      (execAuto ⟨"auto", [], []⟩ (prBodyArgs false 7 "ci" "done")
          false (fun _ => ⟨1, []⟩)).isOk = false ∧
      (execAuto ⟨"auto", [], []⟩ (commentArgs false 7 "ci" "done" false false)
          false (fun _ => ⟨1, []⟩)).isOk = false := by
  refine ⟨rfl, rfl, rfl, by decide, by decide, by decide⟩

/-- C10: every public operation calls `execAuto` with exit-code toleration
at its default `false` (no interface parameter can change that), so every
awaited operation fails whenever the subprocess exits non-zero, whatever
its inputs. -/
theorem nonzero_exit_fails (st : Invoker) (run : List String → ExecOutcome)
    (h : ∀ v, (run v).exitCode ≠ 0)
    (lp opb d nvp pre ogl force : Bool) (pr : Int)
    (name email fromRef toRef title message baseBranch useVersion build ctx
      url : String) :
    (info st lp run).isOk = false ∧
      (version st opb fromRef run).isOk = false ∧
      (changelog st d nvp name email fromRef toRef title message baseBranch
        run).isOk = false ∧
      (release st d nvp name email fromRef useVersion baseBranch pre
        run).isOk = false ∧
      (shipit st d baseBranch ogl run).isOk = false ∧
      (latest st d baseBranch run).isOk = false ∧
      (nextCmd st d message run).isOk = false ∧
      (canary st d pr build message force run).isOk = false ∧
      (label st pr run).isOk = false ∧
      (prCheck st d pr ctx url run).isOk = false := by
  have base : ∀ args : List String, (execAuto st args false run).isOk = false := by
    intro args
    rw [execAuto_fails st args run (h _)]
    rfl
  refine ⟨?_, ?_, ?_, ?_, ?_, ?_, ?_, ?_, ?_, ?_⟩ <;>
    simp [info, version, changelog, release, shipit, latest, nextCmd, canary,
      label, prCheck, isOk_map, base]

/-- Witness for C10: with a runner that always exits 1, each awaited
operation fails at concrete inputs. -/
theorem nonzero_exit_fails_witness :
    (info ⟨"auto", [], []⟩ false (fun _ => ⟨1, []⟩)).isOk = false ∧
      (version ⟨"auto", [], []⟩ false "v1" (fun _ => ⟨1, []⟩)).isOk = false ∧
      (changelog ⟨"auto", [], []⟩ false false "n" "e" "v1" "v2" "t" "m" "b"
        (fun _ => ⟨1, []⟩)).isOk = false ∧
      (release ⟨"auto", [], []⟩ false false "n" "e" "v1" "u" "b" false
        (fun _ => ⟨1, []⟩)).isOk = false ∧
      (shipit ⟨"auto", [], []⟩ false "b" false (fun _ => ⟨1, []⟩)).isOk = false ∧
      (latest ⟨"auto", [], []⟩ false "b" (fun _ => ⟨1, []⟩)).isOk = false ∧
      (nextCmd ⟨"auto", [], []⟩ false "m" (fun _ => ⟨1, []⟩)).isOk = false ∧
      (canary ⟨"auto", [], []⟩ false 3 "bl" "m" false
        (fun _ => ⟨1, []⟩)).isOk = false ∧
      (label ⟨"auto", [], []⟩ 3 (fun _ => ⟨1, []⟩)).isOk = false ∧
      (prCheck ⟨"auto", [], []⟩ false 3 "c" "u"
        (fun _ => ⟨1, []⟩)).isOk = false :=
  nonzero_exit_fails ⟨"auto", [], []⟩ (fun _ => ⟨1, []⟩)
    (by intro v; show (1 : Int) ≠ 0; decide)
    false false false false false false false 3
    "n" "e" "v1" "v2" "t" "m" "b" "u" "bl" "c" "u"

end AutoAction
